import Mathlib

/-!
Shallow embedding of the Bath-O-Meter front-end (src/src/App.tsx).

The only behavioural code in the repository is the `captureAndCheck`
callback of the `App` component, together with the three state flags it
drives (`result`, `loading`, `error`) and the module-level constant
`API_URL`.  We model one invocation of `captureAndCheck` as a pure
function of an environment (whether `webcamRef.current` is non-null,
what `getScreenshot()` returns, how the browser decodes the data URL
into blob bytes, and how the `axios.post` resolves) and of the current
state.  Besides the final state the model records the externally visible
events (the payload-decoding fetch, the POST with its multipart form,
and its resolution) and a trace of the states observable at the `await`
suspension points of the async function.
-/

namespace BathOMeter

/-- JSON values as delivered by the transport layer after deserialization
(`axios` parses the response body before the component sees it; the
TypeScript annotation `HygieneResult` is erased at runtime). -/
inductive Json where
  | null : Json
  | bool : Bool → Json
  | num : Int → Json
  | str : String → Json
  | obj : List (String × Json) → Json

/-- Association-list lookup in a JSON object, used only to express the
declared `HygieneResult` shape. -/
def lookupField : List (String × Json) → String → Option Json
  | [], _ => none
  | (k, v) :: rest, key => if k = key then some v else lookupField rest key

/-- Whether a JSON value matches the declared `HygieneResult` interface:
an object with exactly the four string fields `status`, `label`,
`confidence`, `verdict`, with `label` one of the two literal values. -/
def isHygieneShape : Json → Bool
  | Json.obj fields =>
      (match lookupField fields "status" with
       | some (Json.str _) => true
       | _ => false) &&
      (match lookupField fields "label" with
       | some (Json.str l) => l == "fresh_clean" || l == "needs_bath"
       | _ => false) &&
      (match lookupField fields "confidence" with
       | some (Json.str _) => true
       | _ => false) &&
      (match lookupField fields "verdict" with
       | some (Json.str _) => true
       | _ => false) &&
      fields.length == 4
  | _ => false

/-- The three state flags of the `App` component:
`useState<HygieneResult | null>(null)`, `useState<boolean>(false)`,
`useState<string | null>(null)`. -/
structure AppState where
  result : Option Json
  loading : Bool
  error : Option String

/-- The initial component state: `result = null`, `loading = false`,
`error = null`. -/
def initialState : AppState :=
  { result := none, loading := false, error := none }

/-- One part of a multipart form body, as built by
`new File([blob], "selfie.jpg", { type: "image/jpeg" })` plus
`formData.append("file", file)`. -/
structure FormPart where
  fieldName : String
  filename : String
  mime : String
  payload : List Nat
deriving DecidableEq

/-- Externally visible events of one `captureAndCheck` invocation. -/
inductive Event where
  | fetchPayload : String → Event
  | postRequest : String → List FormPart → Event
  | postResolved : Bool → Event
deriving DecidableEq

/-- Observation points of one invocation: the state before the callback
runs, the states at the `await` suspension points (decoding the data URL
via `fetch`/`blob`, and the pending `axios.post`), and the state after
the callback has finished. -/
inductive Instant where
  | beforeAttempt : Instant
  | decodeAwait : Instant
  | netAwait : Instant
  | afterAttempt : Instant
deriving DecidableEq

/-- Outcome of the `axios.post` call: a parsed JSON body on a 2xx
response, or a raised error (thrown network error or non-2xx status,
both of which `axios` surfaces as a rejection). -/
inductive NetOutcome where
  | success : Json → NetOutcome
  | failure : NetOutcome

/-- The environment of one capture attempt: whether `webcamRef.current`
is non-null, what `getScreenshot()` returns, how the browser resolves
`fetch(imageSrc)` followed by `.blob()` (either the payload bytes or a
thrown error), and how the POST resolves. -/
structure CaptureEnv where
  webcamAvailable : Bool
  getScreenshot : Option String
  fetchBlob : String → Except Unit (List Nat)
  net : NetOutcome

/-- Process-wide configuration: the single environment variable
`VITE_API_URL` read by the module. -/
structure Config where
  VITE_API_URL : String

/-- `const API_URL = import.meta.env.VITE_API_URL as string` — evaluated
once at module load, before any capture attempt runs. -/
def API_URL (cfg : Config) : String := cfg.VITE_API_URL

/-- The state right after `setLoading(true); setError(null);` at the top
of `captureAndCheck` (lines 26–27): loading raised, error cleared, the
previous result untouched. -/
def requestingState (s : AppState) : AppState :=
  { s with loading := true, error := none }

/-- The error message set when `getScreenshot()` returns null. -/
def captureErrorMessage : String := "Could not capture image from webcam."

/-- The error message set by the catch block around the decode/POST. -/
def backendErrorMessage : String := "Failed to connect to the Bath-O-Meter backend."

/-- The multipart form built for the upload: exactly one part, field
name `file`, filename `selfie.jpg`, content type `image/jpeg`, payload
the captured frame bytes. -/
def selfieForm (payload : List Nat) : List FormPart :=
  [{ fieldName := "file", filename := "selfie.jpg", mime := "image/jpeg",
     payload := payload }]

/-- Result of one `captureAndCheck` invocation: the final state, the
externally visible events in order, and the states at each observation
instant. -/
structure RunResult where
  final : AppState
  events : List Event
  trace : List (Instant × AppState)

/-- One invocation of `captureAndCheck` (src/src/App.tsx lines 23–55),
given the startup-resolved endpoint URL, the environment of this
attempt, and the current state:

1. `if (!webcamRef.current) return;`
2. `setLoading(true); setError(null);`
3. `const imageSrc = webcamRef.current.getScreenshot();` — if null, set
   the capture error, drop loading, return (no fetch, no POST);
4. `try { await fetch(imageSrc); await response.blob(); … }` — a thrown
   decode error lands in the same catch as a network failure;
5. `await axios.post(API_URL, formData)` — on success store the parsed
   body via `setResult`, on rejection set the backend error via the
   catch block (result untouched);
6. `finally { setLoading(false); }` on every path out of the try. -/
def captureAndCheck (apiUrl : String) (env : CaptureEnv) (s : AppState) :
    RunResult :=
  if env.webcamAvailable then
    let s1 := requestingState s
    match env.getScreenshot with
    | none =>
        let s2 := { s1 with error := some captureErrorMessage, loading := false }
        { final := s2, events := [],
          trace := [(Instant.beforeAttempt, s), (Instant.afterAttempt, s2)] }
    | some imageSrc =>
        match env.fetchBlob imageSrc with
        | Except.error _ =>
            let s2 := { s1 with error := some backendErrorMessage }
            let s3 := { s2 with loading := false }
            { final := s3, events := [Event.fetchPayload imageSrc],
              trace := [(Instant.beforeAttempt, s), (Instant.decodeAwait, s1),
                        (Instant.afterAttempt, s3)] }
        | Except.ok bytes =>
            match env.net with
            | NetOutcome.success body =>
                let s2 := { s1 with result := some body }
                let s3 := { s2 with loading := false }
                { final := s3,
                  events := [Event.fetchPayload imageSrc,
                             Event.postRequest apiUrl (selfieForm bytes),
                             Event.postResolved true],
                  trace := [(Instant.beforeAttempt, s), (Instant.decodeAwait, s1),
                            (Instant.netAwait, s1), (Instant.afterAttempt, s3)] }
            | NetOutcome.failure =>
                let s2 := { s1 with error := some backendErrorMessage }
                let s3 := { s2 with loading := false }
                { final := s3,
                  events := [Event.fetchPayload imageSrc,
                             Event.postRequest apiUrl (selfieForm bytes),
                             Event.postResolved false],
                  trace := [(Instant.beforeAttempt, s), (Instant.decodeAwait, s1),
                            (Instant.netAwait, s1), (Instant.afterAttempt, s3)] }
  else
    { final := s, events := [],
      trace := [(Instant.beforeAttempt, s), (Instant.afterAttempt, s)] }

/-- Number of `postRequest` events in an event list. -/
def postCount : List Event → Nat
  | [] => 0
  | Event.postRequest _ _ :: rest => postCount rest + 1
  | _ :: rest => postCount rest

/-- The JSON body stored by an attempt when it reaches a successful
response, `none` on every other path. -/
def succeedsWith (env : CaptureEnv) : Option Json :=
  if env.webcamAvailable then
    match env.getScreenshot with
    | none => none
    | some imageSrc =>
        match env.fetchBlob imageSrc with
        | Except.error _ => none
        | Except.ok _ =>
            match env.net with
            | NetOutcome.success body => some body
            | NetOutcome.failure => none
  else none

/-- The error message an attempt (with the webcam ref available) ends
with: `none` on the success path, the capture message when no frame is
obtained, the backend message when decoding or the POST fails. -/
def failureMessage (env : CaptureEnv) : Option String :=
  match env.getScreenshot with
  | none => some captureErrorMessage
  | some imageSrc =>
      match env.fetchBlob imageSrc with
      | Except.error _ => some backendErrorMessage
      | Except.ok _ =>
          match env.net with
          | NetOutcome.success _ => none
          | NetOutcome.failure => some backendErrorMessage

/-- Folding a sequence of capture attempts from a starting state. -/
def runAttempts (apiUrl : String) : List CaptureEnv → AppState → AppState
  | [], s => s
  | env :: rest, s => runAttempts apiUrl rest (captureAndCheck apiUrl env s).final

/-- A fixed sample environment: webcam available, a frame captured,
decoding yields three bytes, and the POST succeeds with a body of the
declared shape. -/
def sampleBody : Json :=
  Json.obj [("status", Json.str "ok"), ("label", Json.str "fresh_clean"),
            ("confidence", Json.str "97%"), ("verdict", Json.str "Squeaky Clean")]

/-- Sample environment for the success path. -/
def successEnv : CaptureEnv :=
  { webcamAvailable := true, getScreenshot := some "data:image/jpeg;base64,AAAA",
    fetchBlob := fun _ => Except.ok [1, 2, 3], net := NetOutcome.success sampleBody }

/-- C1.  For every capture attempt in which the Capture Source returns a
frame, the payload decodes, and the POST succeeds, `captureAndCheck`
ends with `loading = false`, `error = null`, and `result` equal to the
parsed response body, stored unmodified. -/
theorem captureAndCheck_success_state (apiUrl : String) (env : CaptureEnv)
    (s : AppState) (src : String) (bytes : List Nat) (body : Json)
    (hw : env.webcamAvailable = true) (hs : env.getScreenshot = some src)
    (hd : env.fetchBlob src = Except.ok bytes)
    (hn : env.net = NetOutcome.success body) :
    (captureAndCheck apiUrl env s).final =
      { result := some body, loading := false, error := none } := by
  simp [captureAndCheck, hw, hs, hd, hn, requestingState]

/-- Witness for C1: the success theorem applied to a concrete
environment and the initial state. -/
theorem captureAndCheck_success_state_witness :
    (captureAndCheck "http://api" successEnv initialState).final =
      { result := some sampleBody, loading := false, error := none } :=
  captureAndCheck_success_state "http://api" successEnv initialState
    "data:image/jpeg;base64,AAAA" [1, 2, 3] sampleBody rfl rfl rfl rfl

/-- C2.  For every capture attempt in which the Capture Source returns
no frame (`getScreenshot` yields null), `captureAndCheck` ends in the
Failed state — `loading = false`, a non-null error message — and issues
no network call: neither the payload-decoding fetch nor the POST appears
among the events. -/
theorem captureAndCheck_no_frame (apiUrl : String) (env : CaptureEnv)
    (s : AppState) (hw : env.webcamAvailable = true)
    (hs : env.getScreenshot = none) :
    (captureAndCheck apiUrl env s).final.loading = false ∧
    (captureAndCheck apiUrl env s).final.error = some captureErrorMessage ∧
    (captureAndCheck apiUrl env s).events = [] := by
  simp [captureAndCheck, hw, hs, requestingState]

/-- Sample environment for the no-frame path. -/
def noFrameEnv : CaptureEnv :=
  { webcamAvailable := true, getScreenshot := none,
    fetchBlob := fun _ => Except.error (), net := NetOutcome.failure }

/-- Witness for C2: the no-frame theorem applied to a concrete
environment and the initial state. -/
theorem captureAndCheck_no_frame_witness :
    (captureAndCheck "http://api" noFrameEnv initialState).final.loading = false ∧
    (captureAndCheck "http://api" noFrameEnv initialState).final.error =
      some captureErrorMessage ∧
    (captureAndCheck "http://api" noFrameEnv initialState).events = [] :=
  captureAndCheck_no_frame "http://api" noFrameEnv initialState rfl rfl

/-- C3.  For every capture attempt in which the network call fails (a
thrown network error or a non-2xx status, both of which `axios` raises),
`captureAndCheck` ends with `loading = false` and a non-null error
message whose wording differs from the capture-unavailable message, and
leaves any previously stored result unchanged. -/
theorem captureAndCheck_transport_failure (apiUrl : String) (env : CaptureEnv)
    (s : AppState) (src : String) (bytes : List Nat)
    (hw : env.webcamAvailable = true) (hs : env.getScreenshot = some src)
    (hd : env.fetchBlob src = Except.ok bytes)
    (hn : env.net = NetOutcome.failure) :
    (captureAndCheck apiUrl env s).final.loading = false ∧
    (captureAndCheck apiUrl env s).final.error = some backendErrorMessage ∧
    backendErrorMessage ≠ captureErrorMessage ∧
    (captureAndCheck apiUrl env s).final.result = s.result := by
  refine ⟨?_, ?_, ?_, ?_⟩ <;>
    simp [captureAndCheck, hw, hs, hd, hn, requestingState,
      backendErrorMessage, captureErrorMessage]

/-- Sample environment for the transport-failure path. -/
def netFailEnv : CaptureEnv :=
  { webcamAvailable := true, getScreenshot := some "data:image/jpeg;base64,AAAA",
    fetchBlob := fun _ => Except.ok [1, 2, 3], net := NetOutcome.failure }

/-- A state holding a previously stored result, to exercise the
result-preservation conjuncts concretely. -/
def previousResultState : AppState :=
  { result := some sampleBody, loading := false, error := none }

/-- Witness for C3: the transport-failure theorem applied to a concrete
environment and a state that already holds a result. -/
theorem captureAndCheck_transport_failure_witness :
    (captureAndCheck "http://api" netFailEnv previousResultState).final.loading = false ∧
    (captureAndCheck "http://api" netFailEnv previousResultState).final.error =
      some backendErrorMessage ∧
    backendErrorMessage ≠ captureErrorMessage ∧
    (captureAndCheck "http://api" netFailEnv previousResultState).final.result =
      previousResultState.result :=
  captureAndCheck_transport_failure "http://api" netFailEnv previousResultState
    "data:image/jpeg;base64,AAAA" [1, 2, 3] rfl rfl rfl rfl

/-- C4.  For every invocation with no Capture Source reference available
(`webcamRef.current` is null), the operation is a no-op: the final state
is the incoming state unchanged and no event is issued. -/
theorem captureAndCheck_no_webcam_noop (apiUrl : String) (env : CaptureEnv)
    (s : AppState) (hw : env.webcamAvailable = false) :
    (captureAndCheck apiUrl env s).final = s ∧
    (captureAndCheck apiUrl env s).events = [] := by
  simp [captureAndCheck, hw]

/-- Sample environment with the webcam ref unavailable. -/
def noWebcamEnv : CaptureEnv :=
  { webcamAvailable := false, getScreenshot := some "data:image/jpeg;base64,AAAA",
    fetchBlob := fun _ => Except.ok [1, 2, 3], net := NetOutcome.success sampleBody }

/-- Witness for C4: the no-op theorem applied to a concrete environment
and a state carrying an error and a result. -/
theorem captureAndCheck_no_webcam_noop_witness :
    (captureAndCheck "http://api" noWebcamEnv previousResultState).final =
      previousResultState ∧
    (captureAndCheck "http://api" noWebcamEnv previousResultState).events = [] :=
  captureAndCheck_no_webcam_noop "http://api" noWebcamEnv previousResultState rfl

/-- The property C5 asserts, as stated: at every observed instant of the
attempt, `loading` is true when the network request is pending and false
at every other observed instant. -/
def loadingExactlyDuringNet (r : RunResult) : Prop :=
  ∀ p ∈ r.trace,
    (p.1 = Instant.netAwait → p.2.loading = true) ∧
    (p.1 ≠ Instant.netAwait → p.2.loading = false)

/-- Counterexample to C5 as stated: `setLoading(true)` runs before the
screenshot is even taken, so at the decode suspension points (`await
fetch(imageSrc)` / `await response.blob()`) — observed instants at which
the POST has not yet been issued — `loading` is already true. -/
theorem captureAndCheck_loading_claim_counterexample :
    ¬ loadingExactlyDuringNet (captureAndCheck "http://api" successEnv initialState) := by
  intro h
  have hmem : (Instant.decodeAwait, requestingState initialState) ∈
      (captureAndCheck "http://api" successEnv initialState).trace := by
    simp [captureAndCheck, successEnv, initialState]
  have hfalse := (h _ hmem).2 (by decide)
  simp [requestingState, initialState] at hfalse

/-- C5 (amended).  For every capture attempt with the webcam ref
available: `loading` is true at every observed instant from attempt
entry to completion — in particular for the entire interval the network
request is pending, and already at the payload-decode suspension points
— the state at the before-attempt instant is the incoming state
unchanged, `loading` is false at the after-attempt instant, and it is
unconditionally reset to false on every exit path (no frame, decode
throw, transport failure, success): the `finally` block runs even when
the try body throws. -/
theorem captureAndCheck_loading_lifecycle (apiUrl : String) (env : CaptureEnv)
    (s : AppState) (hw : env.webcamAvailable = true) :
    (∀ p ∈ (captureAndCheck apiUrl env s).trace,
        p.1 = Instant.netAwait ∨ p.1 = Instant.decodeAwait → p.2.loading = true) ∧
    (∀ p ∈ (captureAndCheck apiUrl env s).trace,
        p.1 = Instant.beforeAttempt → p.2 = s) ∧
    (∀ p ∈ (captureAndCheck apiUrl env s).trace,
        p.1 = Instant.afterAttempt → p.2.loading = false) ∧
    (captureAndCheck apiUrl env s).final.loading = false := by
  rcases hscreen : env.getScreenshot with _ | src
  · simp [captureAndCheck, hw, hscreen, requestingState]
  · rcases hd : env.fetchBlob src with e | bytes
    · simp [captureAndCheck, hw, hscreen, hd, requestingState]
    · rcases hn : env.net with body | _ <;>
        simp [captureAndCheck, hw, hscreen, hd, hn, requestingState]

/-- Witness for C5 (amended): on a concrete transport-failure run,
`loading` is true at the pending-network instant and false in the final
state. -/
theorem captureAndCheck_loading_lifecycle_witness :
    (requestingState initialState).loading = true ∧
    (captureAndCheck "http://api" netFailEnv initialState).final.loading = false := by
  have h := captureAndCheck_loading_lifecycle "http://api" netFailEnv initialState rfl
  refine ⟨h.1 (Instant.netAwait, requestingState initialState) ?_ (Or.inl rfl), h.2.2.2⟩
  simp [captureAndCheck, netFailEnv, initialState]

/-- With the webcam ref available, the final error of an attempt is
exactly the message determined by the attempt's own outcome, whatever
the incoming error was. -/
lemma final_error_eq (apiUrl : String) (env : CaptureEnv) (s : AppState)
    (hw : env.webcamAvailable = true) :
    (captureAndCheck apiUrl env s).final.error = failureMessage env := by
  rcases hscreen : env.getScreenshot with _ | src
  · simp [captureAndCheck, failureMessage, hw, hscreen, requestingState]
  · rcases hd : env.fetchBlob src with e | bytes
    · simp [captureAndCheck, failureMessage, hw, hscreen, hd, requestingState]
    · rcases hn : env.net with body | _ <;>
        simp [captureAndCheck, failureMessage, hw, hscreen, hd, hn, requestingState]

/-- C6.  At the start of every attempt (after the precondition check)
the entry state clears the error to null while leaving the previous
result untouched — on frame-yielding paths that entry state is observed
at the decode suspension point — and for two consecutive attempts each
attempt's final error is exactly the fresh message determined by its own
outcome (`failureMessage`), independent of whatever error the previous
attempt left behind: error text never accumulates across attempts. -/
theorem captureAndCheck_fresh_error_per_attempt (apiUrl : String)
    (env1 env2 : CaptureEnv) (s : AppState)
    (hw1 : env1.webcamAvailable = true) (hw2 : env2.webcamAvailable = true) :
    (requestingState s).error = none ∧
    (requestingState s).result = s.result ∧
    (∀ src, env1.getScreenshot = some src →
      (Instant.decodeAwait, requestingState s) ∈
        (captureAndCheck apiUrl env1 s).trace) ∧
    (captureAndCheck apiUrl env1 s).final.error = failureMessage env1 ∧
    (captureAndCheck apiUrl env2
        (captureAndCheck apiUrl env1 s).final).final.error = failureMessage env2 := by
  refine ⟨rfl, rfl, ?_, final_error_eq apiUrl env1 s hw1,
    final_error_eq apiUrl env2 _ hw2⟩
  intro src hsrc
  rcases hd : env1.fetchBlob src with e | bytes
  · simp [captureAndCheck, hw1, hsrc, hd]
  · rcases hn : env1.net with body | _ <;>
      simp [captureAndCheck, hw1, hsrc, hd, hn]

/-- Witness for C6: a transport-failure attempt followed by a no-frame
attempt, from a state already holding a result; the second attempt's
final error is exactly the capture message, with no trace of the first
attempt's backend message. -/
theorem captureAndCheck_fresh_error_per_attempt_witness :
    (requestingState previousResultState).error = none ∧
    (Instant.decodeAwait, requestingState previousResultState) ∈
      (captureAndCheck "http://api" netFailEnv previousResultState).trace ∧
    (captureAndCheck "http://api" netFailEnv previousResultState).final.error =
      failureMessage netFailEnv ∧
    (captureAndCheck "http://api" noFrameEnv
        (captureAndCheck "http://api" netFailEnv
          previousResultState).final).final.error = failureMessage noFrameEnv := by
  have h := captureAndCheck_fresh_error_per_attempt "http://api" netFailEnv
    noFrameEnv previousResultState rfl rfl
  exact ⟨h.1, h.2.2.1 "data:image/jpeg;base64,AAAA" rfl, h.2.2.2.1, h.2.2.2.2⟩

/-- A concrete configuration value for witnesses. -/
def sampleConfig : Config := { VITE_API_URL := "http://api" }

/-- C7.  Every classification request is a single POST — at most one
`postRequest` event per attempt, exactly one whenever the decode
succeeds — whose body is multipart form data with exactly one part:
field name `file`, filename `selfie.jpg`, content type `image/jpeg`,
payload the captured frame's decoded bytes; and its URL is the value
read once from the process-wide configuration at startup (`API_URL`),
which `captureAndCheck` receives as a constant and never re-reads. -/
theorem captureAndCheck_post_contract (cfg : Config) (env : CaptureEnv)
    (s : AppState) :
    postCount (captureAndCheck (API_URL cfg) env s).events ≤ 1 ∧
    (∀ src bytes, env.webcamAvailable = true → env.getScreenshot = some src →
      env.fetchBlob src = Except.ok bytes →
      postCount (captureAndCheck (API_URL cfg) env s).events = 1) ∧
    (∀ u f, Event.postRequest u f ∈ (captureAndCheck (API_URL cfg) env s).events →
      u = API_URL cfg ∧ f.length = 1 ∧
      ∃ src bytes, env.getScreenshot = some src ∧
        env.fetchBlob src = Except.ok bytes ∧ f = selfieForm bytes) := by
  rcases hw : env.webcamAvailable with _ | _
  · simp [captureAndCheck, hw, postCount]
  · rcases hscreen : env.getScreenshot with _ | src
    · simp [captureAndCheck, hw, hscreen, postCount]
    · rcases hd : env.fetchBlob src with e | bytes
      · refine ⟨?_, ?_, ?_⟩
        · simp [captureAndCheck, hw, hscreen, hd, postCount]
        · intro src2 bytes2 _ hs2 hd2
          injection hs2 with hsrc
          subst hsrc
          rw [hd] at hd2
          cases hd2
        · intro u f hf
          simp [captureAndCheck, hw, hscreen, hd] at hf
      · rcases hn : env.net with body | _ <;>
        · refine ⟨?_, ?_, ?_⟩
          · simp [captureAndCheck, hw, hscreen, hd, hn, postCount]
          · intro src2 bytes2 _ _ _
            simp [captureAndCheck, hw, hscreen, hd, hn, postCount]
          · intro u f hf
            simp [captureAndCheck, hw, hscreen, hd, hn] at hf
            obtain ⟨hu, hform⟩ := hf
            exact ⟨hu, by simp [hform, selfieForm],
              src, bytes, rfl, hd, hform⟩

/-- Witness for C7: on a concrete successful run, exactly one POST is
issued, and the POST event present in the events carries the startup
URL and the single-part selfie form. -/
theorem captureAndCheck_post_contract_witness :
    postCount (captureAndCheck (API_URL sampleConfig) successEnv initialState).events = 1 ∧
    ("http://api" = API_URL sampleConfig ∧ (selfieForm [1, 2, 3]).length = 1 ∧
      ∃ src bytes, successEnv.getScreenshot = some src ∧
        successEnv.fetchBlob src = Except.ok bytes ∧
        selfieForm [1, 2, 3] = selfieForm bytes) := by
  have h := captureAndCheck_post_contract sampleConfig successEnv initialState
  refine ⟨h.2.1 "data:image/jpeg;base64,AAAA" [1, 2, 3] rfl rfl rfl, ?_⟩
  refine h.2.2 "http://api" (selfieForm [1, 2, 3]) ?_
  simp [captureAndCheck, successEnv, initialState, API_URL, sampleConfig]

/-- The result slot after one attempt: overwritten by the body on a
fully successful attempt, untouched on every other path. -/
lemma step_result (apiUrl : String) (env : CaptureEnv) (s : AppState) :
    (captureAndCheck apiUrl env s).final.result =
      match succeedsWith env with
      | some body => some body
      | none => s.result := by
  rcases hw : env.webcamAvailable with _ | _
  · simp [captureAndCheck, succeedsWith, hw]
  · rcases hscreen : env.getScreenshot with _ | src
    · simp [captureAndCheck, succeedsWith, hw, hscreen, requestingState]
    · rcases hd : env.fetchBlob src with e | bytes
      · simp [captureAndCheck, succeedsWith, hw, hscreen, hd, requestingState]
      · rcases hn : env.net with body | _ <;>
          simp [captureAndCheck, succeedsWith, hw, hscreen, hd, hn, requestingState]

/-- Over any sequence of attempts, the result slot is empty exactly when
it started empty and no attempt in the sequence succeeded. -/
lemma runAttempts_result_none (apiUrl : String) :
    ∀ (envs : List CaptureEnv) (s : AppState),
      (runAttempts apiUrl envs s).result = none ↔
        (s.result = none ∧ ∀ env ∈ envs, succeedsWith env = none)
  | [], s => by simp [runAttempts]
  | env :: rest, s => by
      rw [runAttempts, runAttempts_result_none apiUrl rest, step_result]
      cases hsw : succeedsWith env with
      | some body => simp [hsw, List.forall_mem_cons]
      | none => simp [hsw, List.forall_mem_cons, and_assoc]

/-- C8.  The stored result is invariantly one `ClassificationResult`-or-
null slot: null at startup, after any attempt it equals the new body on
a fully successful attempt and the previous value otherwise, it is never
reset to null once set, and across any sequence of attempts started from
the initial state it is null exactly when no attempt has yet succeeded. -/
theorem result_single_slot_invariant (apiUrl : String) :
    initialState.result = none ∧
    (∀ env s, (captureAndCheck apiUrl env s).final.result =
        match succeedsWith env with
        | some body => some body
        | none => s.result) ∧
    (∀ env s r, s.result = some r →
        (captureAndCheck apiUrl env s).final.result ≠ none) ∧
    (∀ envs : List CaptureEnv,
      ((runAttempts apiUrl envs initialState).result = none ↔
        ∀ env ∈ envs, succeedsWith env = none)) := by
  refine ⟨rfl, step_result apiUrl, ?_, ?_⟩
  · intro env s r hr
    rw [step_result]
    cases hsw : succeedsWith env with
    | some body => simp
    | none => simp [hr]
  · intro envs
    rw [runAttempts_result_none]
    simp [initialState]

/-- Witness for C8: at startup the slot is null, and after a failing
attempt from the initial state it is still null. -/
theorem result_single_slot_invariant_witness :
    initialState.result = none ∧
    ((runAttempts "http://api" [noFrameEnv] initialState).result = none ↔
      ∀ env ∈ [noFrameEnv], succeedsWith env = none) :=
  ⟨(result_single_slot_invariant "http://api").1,
   (result_single_slot_invariant "http://api").2.2.2 [noFrameEnv]⟩

/-- C9.  Every successfully delivered response body is stored as the
current result with no schema validation: a body that does not match the
four-string-field `HygieneResult` shape is still stored unchanged, with
`error` left null, rather than being caught and reported as an error. -/
theorem captureAndCheck_no_schema_validation (apiUrl : String)
    (env : CaptureEnv) (s : AppState) (src : String) (bytes : List Nat)
    (body : Json) (hw : env.webcamAvailable = true)
    (hs : env.getScreenshot = some src)
    (hd : env.fetchBlob src = Except.ok bytes)
    (hn : env.net = NetOutcome.success body)
    (_hshape : isHygieneShape body = false) :
    (captureAndCheck apiUrl env s).final.result = some body ∧
    (captureAndCheck apiUrl env s).final.error = none := by
  simp [captureAndCheck, hw, hs, hd, hn, requestingState]

/-- A response body that is not even a JSON object, let alone the
declared four-string-field shape. -/
def malformedBody : Json := Json.str "oops"

/-- Sample environment whose POST succeeds with a malformed body. -/
def malformedEnv : CaptureEnv :=
  { webcamAvailable := true, getScreenshot := some "data:image/jpeg;base64,AAAA",
    fetchBlob := fun _ => Except.ok [1, 2, 3],
    net := NetOutcome.success malformedBody }

/-- Witness for C9: a concrete run whose response body fails the shape
check is stored as the result with no error. -/
theorem captureAndCheck_no_schema_validation_witness :
    (captureAndCheck "http://api" malformedEnv initialState).final.result =
      some malformedBody ∧
    (captureAndCheck "http://api" malformedEnv initialState).final.error = none :=
  captureAndCheck_no_schema_validation "http://api" malformedEnv initialState
    "data:image/jpeg;base64,AAAA" [1, 2, 3] malformedBody rfl rfl rfl rfl rfl

/-- C10.  When a frame is obtained but decoding it into payload bytes
throws (the `fetch`/`blob` step), the failure lands in the same catch
block as a transport failure: the attempt ends with `loading = false`,
the result unchanged, the backend error message (not the capture
message), and no POST is ever issued. -/
theorem captureAndCheck_decode_throw (apiUrl : String) (env : CaptureEnv)
    (s : AppState) (src : String) (hw : env.webcamAvailable = true)
    (hs : env.getScreenshot = some src)
    (hd : env.fetchBlob src = Except.error ()) :
    (captureAndCheck apiUrl env s).final.loading = false ∧
    (captureAndCheck apiUrl env s).final.result = s.result ∧
    (captureAndCheck apiUrl env s).final.error = some backendErrorMessage ∧
    backendErrorMessage ≠ captureErrorMessage ∧
    postCount (captureAndCheck apiUrl env s).events = 0 := by
  refine ⟨?_, ?_, ?_, ?_, ?_⟩ <;>
    simp [captureAndCheck, hw, hs, hd, requestingState, postCount,
      backendErrorMessage, captureErrorMessage]

/-- Sample environment whose payload decoding throws. -/
def decodeThrowEnv : CaptureEnv :=
  { webcamAvailable := true, getScreenshot := some "data:image/jpeg;base64,AAAA",
    fetchBlob := fun _ => Except.error (), net := NetOutcome.success sampleBody }

/-- Witness for C10: the decode-throw theorem applied to a concrete
environment and a state already holding a result. -/
theorem captureAndCheck_decode_throw_witness :
    (captureAndCheck "http://api" decodeThrowEnv previousResultState).final.loading = false ∧
    (captureAndCheck "http://api" decodeThrowEnv previousResultState).final.result =
      previousResultState.result ∧
    (captureAndCheck "http://api" decodeThrowEnv previousResultState).final.error =
      some backendErrorMessage ∧
    backendErrorMessage ≠ captureErrorMessage ∧
    postCount (captureAndCheck "http://api" decodeThrowEnv previousResultState).events = 0 :=
  captureAndCheck_decode_throw "http://api" decodeThrowEnv previousResultState
    "data:image/jpeg;base64,AAAA" rfl rfl rfl

end BathOMeter
